import Mathlib

/-
  Shallow embedding of the ecovision AI service (src/ai_service) in Lean 4.

  Python strings are modelled as Lean `String`s (with explicit char-list
  manipulation where Python does character work), bytes as `List Nat` with
  values below 256, floats as rationals (only ever passed through, never
  computed with), and dictionaries with a fixed key set as structures with
  `Option` fields (`none` models an absent key).  Model calls into the
  opaque ML runtimes (ultralytics, SAM2, PIL) are oracles: parameters of
  the embedded functions that record the outcome the runtime would produce.
-/

/-! ## Python string helpers -/

/-- Model of Python `str.lower()` for the ASCII labels this service
handles: lowercase every character. -/
def py_lower (s : String) : String := String.mk (s.data.map Char.toLower)

/-- Whether the first list starts the second. -/
def starts_with : List Char → List Char → Bool
  | [], _ => true
  | a :: as, l =>
    match l with
    | [] => false
    | b :: bs => a == b && starts_with as bs

/-- Model of the Python substring test `needle in haystack`:
true iff `needle` occurs contiguously in `haystack` (the empty needle
is contained in everything, as in Python). -/
def py_contains : List Char → List Char → Bool
  | needle, [] => needle.isEmpty
  | needle, h :: t => starts_with needle (h :: t) || py_contains needle t

/-- Model of Python `str.strip()`: drop whitespace from both ends. -/
def py_strip (l : List Char) : List Char :=
  ((l.dropWhile Char.isWhitespace).reverse.dropWhile Char.isWhitespace).reverse

/-! ## `inference/mapper.py` — WasteMapper

The four dictionaries built in `WasteMapper.__init__` are modelled as
association lists in Python definition order (Python dicts preserve
insertion order, which the substring-fallback loop relies on). -/

/-- `WasteMapper.class_mapping`: raw YOLO class name → waste class. -/
def class_mapping : List (String × String) :=
  [ ("bottle", "plastic_bottle"),
    ("plastic_bottle", "plastic_bottle"),
    ("water_bottle", "plastic_bottle"),
    ("pet_bottle", "plastic_bottle"),
    ("wrapper", "plastic_wrapper"),
    ("plastic_wrapper", "plastic_wrapper"),
    ("bag", "plastic_wrapper"),
    ("plastic_bag", "plastic_wrapper"),
    ("cup", "paper_cup"),
    ("paper_cup", "paper_cup"),
    ("paper", "paper_cup"),
    ("cardboard", "cardboard_box"),
    ("cardboard_box", "cardboard_box"),
    ("box", "cardboard_box"),
    ("food", "food_waste"),
    ("food_waste", "food_waste"),
    ("organic", "food_waste"),
    ("banana", "food_waste"),
    ("apple", "food_waste"),
    ("glass", "glass_bottle"),
    ("glass_bottle", "glass_bottle"),
    ("bottle_glass", "glass_bottle"),
    ("can", "metal_can"),
    ("metal_can", "metal_can"),
    ("aluminum", "metal_can"),
    ("tin", "metal_can"),
    ("cloth", "cloth"),
    ("fabric", "cloth"),
    ("textile", "cloth"),
    ("clothing", "cloth") ]

/-- The 8 fixed waste categories (the key set of the static tables). -/
def waste_categories : List String :=
  [ "plastic_bottle", "plastic_wrapper", "paper_cup", "food_waste",
    "glass_bottle", "metal_can", "cardboard_box", "cloth" ]

/-- `WasteMapper.disposal_instructions`. -/
def disposal_instructions : List (String × String) :=
  [ ("plastic_bottle", "Rinse and place in recycling bin. Remove caps if required locally."),
    ("plastic_wrapper", "Check local guidelines. Most thin plastic wrappers go in general waste."),
    ("paper_cup", "Remove plastic lining if possible. Place in paper recycling or general waste."),
    ("food_waste", "Compost if available, otherwise place in organic waste bin."),
    ("glass_bottle", "Rinse and place in glass recycling bin. Remove labels if required."),
    ("metal_can", "Rinse and place in metal recycling bin. Crush to save space."),
    ("cardboard_box", "Flatten and place in paper/cardboard recycling bin."),
    ("cloth", "Donate if usable, otherwise place in textile recycling or general waste.") ]

/-- `WasteMapper.reuse_ideas` (3 per class). -/
def reuse_ideas : List (String × List String) :=
  [ ("plastic_bottle",
      [ "Cut and use as plant propagation containers",
        "Create DIY watering globes for potted plants",
        "Transform into storage containers for small items" ]),
    ("plastic_wrapper",
      [ "Use as protective wrap for fragile items during moving",
        "Create DIY waterproof covers for outdoor items",
        "Repurpose as temporary storage bags" ]),
    ("paper_cup",
      [ "Use as seed starter pots (biodegradable)",
        "Create small organizers for desk supplies",
        "Use for arts and crafts projects" ]),
    ("food_waste",
      [ "Compost to create nutrient-rich soil",
        "Use vegetable scraps to make homemade stock",
        "Regrow vegetables from scraps (e.g., green onions, lettuce)" ]),
    ("glass_bottle",
      [ "Repurpose as decorative vases or candle holders",
        "Use for storing homemade preserves or oils",
        "Create DIY table lamps or pendant lights" ]),
    ("metal_can",
      [ "Use as planters for small herbs or succulents",
        "Create rustic utensil holders or organizers",
        "Transform into candle lanterns with decorative holes" ]),
    ("cardboard_box",
      [ "Use as drawer dividers or closet organizers",
        "Create storage boxes for seasonal items",
        "Repurpose as play structures or forts for children" ]),
    ("cloth",
      [ "Cut into rags for cleaning",
        "Create patchwork quilts or blankets",
        "Transform into reusable shopping bags or totes" ]) ]

/-- `WasteMapper.dustbin_mapping`. -/
def dustbin_mapping : List (String × String) :=
  [ ("plastic_bottle", "Blue Bin"),
    ("plastic_wrapper", "Red Bin"),
    ("paper_cup", "Blue Bin"),
    ("food_waste", "Green Bin"),
    ("glass_bottle", "Blue Bin"),
    ("metal_can", "Blue Bin"),
    ("cardboard_box", "Blue Bin"),
    ("cloth", "Yellow Bin") ]

/-- The partial-matching `for key, value in self.class_mapping.items()` loop
with its `break`: returns the value of the first entry (in table order)
whose key contains or is contained in the raw label. -/
def contain_loop : List (String × String) → String → Option String
  | [], _ => none
  | (k, v) :: rest, raw =>
    if py_contains k.data raw.data || py_contains raw.data k.data then some v
    else contain_loop rest raw

/-- The class-resolution part of `WasteMapper.map_detection`, applied to the
already-lowercased raw class: exact dict lookup, then the substring loop,
then the hard default.  (Python tests the lookup result with `if not
waste_class:`; since every table value is a non-empty string, that is
exactly the `None` test.) -/
def map_class (raw_class : String) : String :=
  match List.lookup raw_class class_mapping with
  | some v => v
  | none =>
    match contain_loop class_mapping raw_class with
    | some v => v
    | none => "plastic_bottle"

/-- A detector output dict as consumed by `map_detection`: the four keys it
reads, each possibly absent (`detection.get`). -/
structure PyDetection where
  class_name : Option String := none
  bbox : Option (List ℚ) := none
  confidence : Option ℚ := none
  class_id : Option Int := none

/-- The dict built at the end of `map_detection`.  The Python key
`"class"` is rendered as the field `cls` (`class` is a Lean keyword). -/
structure MappedDetection where
  cls : String
  confidence : ℚ
  bbox : List ℚ
  class_id : Int
  disposal : String
  ideas : List String
  dustbin : String

/-- `WasteMapper.map_detection`: lowercase the raw class (missing key
defaults to the empty string), resolve the waste class, and assemble the
mapped dict with per-field defaults. -/
def map_detection (detection : PyDetection) : MappedDetection :=
  let raw_class := py_lower (detection.class_name.getD "")
  let waste_class := map_class raw_class
  { cls := waste_class
    confidence := detection.confidence.getD 0
    bbox := detection.bbox.getD [0, 0, 0, 0]
    class_id := detection.class_id.getD 0
    disposal := (List.lookup waste_class disposal_instructions).getD "Check local guidelines."
    ideas := (List.lookup waste_class reuse_ideas).getD []
    dustbin := (List.lookup waste_class dustbin_mapping).getD "Blue Bin" }

/-! ## `utils/image_io.py` — base64 codec

`base64.b64encode` / `base64.b64decode` are the Python standard library;
they are modelled here by the standard base64 algorithm (RFC 4648 alphabet,
trailing `=` padding).  The decoder models `b64decode` on inputs whose
padding, if any, is terminal — the only shape the service ever feeds it. -/

/-- The standard base64 alphabet, in value order. -/
def b64_alphabet : List Char :=
  "ABCDEFGHIJKLMNOPQRSTUVWXYZabcdefghijklmnopqrstuvwxyz0123456789+/".data

/-- The alphabet character of a 6-bit value. -/
def sextet_char (n : Nat) : Char := b64_alphabet.getD n '?'

/-- The 6-bit value of an alphabet character (`none` off-alphabet). -/
def char_sextet (c : Char) : Option Nat :=
  let rec go : List Char → Nat → Option Nat
    | [], _ => none
    | x :: xs, i => if x = c then some i else go xs (i + 1)
  go b64_alphabet 0

/-- `base64.b64encode`: 3 bytes → 4 chars, `=`-padded tail. -/
def b64encode : List Nat → List Char
  | [] => []
  | [a] => [sextet_char (a / 4), sextet_char (a % 4 * 16), '=', '=']
  | [a, b] =>
      [sextet_char (a / 4), sextet_char (a % 4 * 16 + b / 16),
       sextet_char (b % 16 * 4), '=']
  | a :: b :: c :: rest =>
      sextet_char (a / 4) :: sextet_char (a % 4 * 16 + b / 16) ::
      sextet_char (b % 16 * 4 + c / 64) :: sextet_char (c % 64) ::
      b64encode rest

/-- `base64.b64decode` (for terminal padding): 4 chars → 3 bytes, with the
two padded final-quantum forms; `none` models `binascii.Error`. -/
def b64decode : List Char → Option (List Nat)
  | [] => some []
  | c0 :: c1 :: c2 :: c3 :: rest =>
    match char_sextet c0, char_sextet c1 with
    | some s0, some s1 =>
      if c2 = '=' then
        if c3 = '=' then
          match rest with
          | [] => some [s0 * 4 + s1 / 16]
          | _ => none
        else none
      else
        match char_sextet c2 with
        | some s2 =>
          if c3 = '=' then
            match rest with
            | [] => some [s0 * 4 + s1 / 16, s1 % 16 * 16 + s2 / 4]
            | _ => none
          else
            match char_sextet c3 with
            | some s3 =>
              match b64decode rest with
              | some ds =>
                  some ((s0 * 4 + s1 / 16) :: (s1 % 16 * 16 + s2 / 4) ::
                        (s2 % 4 * 64 + s3) :: ds)
              | none => none
            | none => none
        | none => none
    | _, _ => none
  | _ => none

/-- `decode_image`: strip a data-URL head (Python
`base64_string.split(",")[1]` keeps what lies between the first and second
comma), strip whitespace, then base64-decode; `none` models the raised
`ValueError`. -/
def decode_image (base64_string : List Char) : Option (List Nat) :=
  let s :=
    if py_contains ",".data base64_string then
      ((base64_string.dropWhile (· != ',')).drop 1).takeWhile (· != ',')
    else base64_string
  b64decode (py_strip s)

/-- `encode_image_to_base64`: base64 with a `data:image/<fmt>;base64,`
head; the `format` argument defaults to `"PNG"` in the source. -/
def encode_image_to_base64 (image_bytes : List Nat) (format : List Char) : List Char :=
  "data:image/".data ++ format.map Char.toLower ++ ";base64,".data
    ++ b64encode image_bytes

/-! ## `main.py` — the `/detect` orchestrator

`detect_waste` is embedded as a pure function of the request inputs and an
`AppCtx` recording the process state and the oracles for the two model
calls made on the success path. -/

/-- Process state and model-call oracles for one `/detect` request.
`detectResult` is the outcome of `detector.detect(image_data)` (an
`Except.error` models a raised exception, caught by the 500 handler);
`segAttempt i` is the outcome of the guarded
`segment` + `encode_mask_to_base64` block for detection index `i`
(`none` models a raised exception, caught per detection). -/
structure AppCtx where
  detectorLoaded : Bool
  segmenterLoaded : Bool
  detectResult : Except String (List PyDetection)
  segAttempt : Nat → Option String

/-- The JSON body of a successful `/detect` response.  `masks = none`
models the absence of the `"masks"` key; a `none` entry inside the list
models a JSON `null`. -/
structure DetectResponse where
  success : Bool
  detections : List MappedDetection
  count : Nat
  masks : Option (List (Option String))

/-- Outcome of one `/detect` request: an `HTTPException` with its status
code and detail, or a JSON response. -/
inductive DetectOutcome where
  | http (status : Nat) (detail : String)
  | ok (r : DetectResponse)

/-- The image-acquisition block of `detect_waste`: `if image: ...
elif image_base64: ... else: 400`.  A present file is truthy; a present
but empty `image_base64` string is falsy in Python and falls through to
the no-image branch.  (The quotes around the field names in the Python
detail string are elided here.) -/
def get_image_data (image : Option (List Nat)) (image_base64 : Option (List Char)) :
    Except (Nat × String) (List Nat) :=
  match image with
  | some file_bytes => .ok file_bytes
  | none =>
    match image_base64 with
    | some s =>
      if s.isEmpty then
        .error (400, "No image provided. Send image file or image_base64 string.")
      else
        match decode_image s with
        | some d => .ok d
        | none => .error (400, "Invalid base64 image")
    | none =>
      .error (400, "No image provided. Send image file or image_base64 string.")

/-- The tail of `detect_waste` from `detector.detect` on: early return on
zero detections, mapping, the three-way masks computation, and response
assembly. -/
def build_response (ctx : AppCtx) (segmentation : Bool) : DetectOutcome :=
  match ctx.detectResult with
  | .error e => .http 500 ("Detection failed: " ++ e)
  | .ok detections =>
    if detections.isEmpty then
      .ok { success := true, detections := [], count := 0, masks := none }
    else
      let mapped_detections := detections.map map_detection
      let masks_base64 : List (Option String) :=
        if segmentation && ctx.segmenterLoaded then
          (List.range detections.length).map ctx.segAttempt
        else if segmentation && !ctx.segmenterLoaded then
          List.replicate detections.length none
        else []
      .ok { success := true
            detections := mapped_detections
            count := mapped_detections.length
            masks := if segmentation then some masks_base64 else none }

/-- `POST /detect` (`detect_waste` in `main.py`): detector-readiness check
first, then image acquisition, then the emptiness re-check
(`if not image_data:`), then the detection/response pipeline. -/
def detect_waste (ctx : AppCtx) (image : Option (List Nat))
    (image_base64 : Option (List Char)) (segmentation : Bool) : DetectOutcome :=
  if !ctx.detectorLoaded then
    .http 503 "Detector not loaded. Check server logs."
  else
    match get_image_data image image_base64 with
    | .error (status, detail) => .http status detail
    | .ok image_data =>
      if image_data.isEmpty then .http 400 "Failed to decode image"
      else build_response ctx segmentation

/-! ## `inference/segmenter.py` — SAM2Segmenter.segment

Embedded as a function of: whether the predictor is loaded, the outcome of
decoding the image bytes (its height and width), the bounding-box list,
and an oracle for the guarded predictor block (`none` models any failure
inside the `try`, `some m` a successfully predicted boolean mask).
The tuple unpacking `x1, y1, x2, y2 = bbox` happens before the `try`
block, so it is modelled outside the guarded region. -/

/-- `SAM2Segmenter.segment`.  An `Except.error` models an exception
propagating out of the method. -/
def sam2_segment (predictorLoaded : Bool) (decoded : Option (Nat × Nat))
    (bbox : List ℚ) (predictOutcome : Option (List (List Bool))) :
    Except String (List (List Nat)) :=
  if !predictorLoaded then .error "SAM2 predictor not loaded"
  else
    match decoded with
    | none => .error "cannot identify image file"
    | some (h, w) =>
      match bbox with
      | [_, _, _, _] =>
        match predictOutcome with
        | some mask => .ok (mask.map (List.map (fun b => if b then 255 else 0)))
        | none => .ok (List.replicate h (List.replicate w 0))
      | _ => .error "not enough values to unpack"

/-! ## `inference/detector.py` — YOLOv10Detector

The loading chain is embedded with two oracles: the outcome of the
YOLOv10 loading attempts (`load10`) and the outcome of loading the
YOLOv8n fallback (`fallback`).  Every failure branch of `_load_yolov10`
(ultralytics miss, load error, torch-load path) terminates in a call to
`_load_yolov8_fallback`; when that call raises, an enclosing `except`
re-attempts the same call with the same deterministic outcome, so a
fallback failure propagates out of `_load_yolov10` and out of
`__init__`. -/

/-- Loading-environment oracles for `YOLOv10Detector.__init__`. -/
structure YoloEnv where
  fileExists : Bool
  load10 : Except String String
  fallback : Except String String

/-- The adapter state: the loaded model handle and its name. -/
structure Detector where
  model : Option String
  model_name : Option String

/-- `YOLOv10Detector._load_yolov8_fallback`: set the model on success,
raise a `RuntimeError` on failure. -/
def load_yolov8_fallback (env : YoloEnv) : Except String Detector :=
  match env.fallback with
  | .ok m => .ok { model := some m, model_name := some "yolov8n" }
  | .error e => .error ("Failed to load YOLOv8 fallback: " ++ e)

/-- `YOLOv10Detector._load_yolov10`: on success set the YOLOv10 model;
on any failure fall through to the v8 fallback (whose error, if any,
propagates — see the section comment). -/
def load_yolov10 (env : YoloEnv) : Except String Detector :=
  match env.load10 with
  | .ok m => .ok { model := some m, model_name := some "yolov10e" }
  | .error _ =>
    match load_yolov8_fallback env with
    | .ok d => .ok d
    | .error e => .error e

/-- `YOLOv10Detector.__init__`: try YOLOv10 when the weights file exists,
otherwise go straight to the fallback. -/
def detector_init (env : YoloEnv) : Except String Detector :=
  if env.fileExists then load_yolov10 env else load_yolov8_fallback env

/-- `YOLOv10Detector.is_ready`. -/
def detector_is_ready (d : Detector) : Bool := d.model.isSome

/-- `YOLOv10Detector.detect`: fail fast when no model is loaded,
otherwise return what the model run parses to (an oracle). -/
def detector_detect (d : Detector) (results : List PyDetection) :
    Except String (List PyDetection) :=
  match d.model with
  | none => .error "Model not loaded"
  | some _ => .ok results

/-- Whether an `Except` is a success (used to state that an operation did
not raise). -/
def except_is_ok : Except ε α → Bool
  | .ok _ => true
  | .error _ => false

/-! ## Concrete contexts used by counterexamples and witnesses -/

/-- A concrete detector output: one bottle detection. -/
def det_bottle : PyDetection :=
  { class_name := some "bottle", bbox := some [1, 2, 3, 4],
    confidence := some (9 / 10), class_id := some 39 }

/-- A ready service whose detector reports zero detections. -/
def ctx_zero_det : AppCtx :=
  { detectorLoaded := true
    segmenterLoaded := true
    detectResult := .ok []
    segAttempt := fun _ => none }

/-- A service whose detector failed to load. -/
def ctx_unready : AppCtx :=
  { detectorLoaded := false
    segmenterLoaded := false
    detectResult := .ok []
    segAttempt := fun _ => none }

/-- A ready service with one detection (a bottle). -/
def ctx_one_det : AppCtx :=
  { detectorLoaded := true
    segmenterLoaded := true
    detectResult := .ok [det_bottle]
    segAttempt := fun _ => some "data:image/png;base64,AAAA" }

/-- Like `ctx_one_det` but with the segmenter unavailable. -/
def ctx_one_det_noseg : AppCtx :=
  { detectorLoaded := true
    segmenterLoaded := false
    detectResult := .ok [det_bottle]
    segAttempt := fun _ => some "data:image/png;base64,AAAA" }

/-- A loading environment where both the YOLOv10 load and the v8 fallback
fail. -/
def env_both_fail : YoloEnv :=
  { fileExists := false
    load10 := .error "weights missing"
    fallback := .error "ultralytics package not installed" }

/-! ## Helper lemmas -/

theorem lookup_mem_values {l : List (String × String)} {a v : String}
    (h : List.lookup a l = some v) : v ∈ l.map Prod.snd := by
  induction l with
  | nil => simp [List.lookup] at h
  | cons kv t ih =>
    obtain ⟨k, b⟩ := kv
    rw [List.lookup] at h
    split at h
    · cases h
      simp
    · simp only [List.map_cons, List.mem_cons]
      exact Or.inr (ih h)

theorem contain_loop_mem_values {l : List (String × String)} {raw v : String}
    (h : contain_loop l raw = some v) : v ∈ l.map Prod.snd := by
  induction l with
  | nil => simp [contain_loop] at h
  | cons kv t ih =>
    obtain ⟨k, b⟩ := kv
    rw [contain_loop] at h
    by_cases hk : (py_contains k.data raw.data || py_contains raw.data k.data) = true
    · rw [if_pos hk] at h
      simp only [Option.some.injEq] at h
      simp [← h]
    · rw [if_neg hk] at h
      simp only [List.map_cons, List.mem_cons]
      exact Or.inr (ih h)

theorem contain_loop_eq_find (l : List (String × String)) (raw : String) :
    contain_loop l raw =
      (l.find? fun kv =>
        py_contains kv.1.data raw.data || py_contains raw.data kv.1.data).map
        Prod.snd := by
  induction l with
  | nil => rfl
  | cons kv t ih =>
    obtain ⟨k, b⟩ := kv
    rw [contain_loop]
    by_cases hk : (py_contains k.data raw.data || py_contains raw.data k.data) = true
    · rw [if_pos hk,
        List.find?_cons_of_pos
          (p := fun kv => py_contains kv.1.data raw.data || py_contains raw.data kv.1.data)
          t hk]
      rfl
    · rw [if_neg hk,
        List.find?_cons_of_neg
          (p := fun kv => py_contains kv.1.data raw.data || py_contains raw.data kv.1.data)
          t hk, ih]

theorem map_class_mem (raw : String) : map_class raw ∈ waste_categories := by
  have hvals : ∀ v ∈ class_mapping.map Prod.snd, v ∈ waste_categories := by decide
  unfold map_class
  cases hl : List.lookup raw class_mapping with
  | some v => exact hvals v (lookup_mem_values hl)
  | none =>
    cases hc : contain_loop class_mapping raw with
    | some v => exact hvals v (contain_loop_mem_values hc)
    | none => decide

/-! ## Claims about the class mapper -/

/-- C3: for a detection whose `class_name` is a string, `map_detection`
is total (never raises) and its `class` field is one of the 8 fixed
waste categories; when the lowered label matches no table key exactly
nor by substring containment, the category is `plastic_bottle`. -/
theorem c3_map_total_and_categorical (d : PyDetection) (s : String)
    (h : d.class_name = some s) :
    (map_detection d).cls ∈ waste_categories ∧
    (List.lookup (py_lower s) class_mapping = none →
      contain_loop class_mapping (py_lower s) = none →
      (map_detection d).cls = "plastic_bottle") := by
  have hc : (map_detection d).cls = map_class (py_lower (d.class_name.getD "")) := rfl
  rw [hc, h]
  refine ⟨map_class_mem _, fun h1 h2 => ?_⟩
  show map_class (py_lower s) = _
  unfold map_class
  rw [h1, h2]

/-- C3 witness: the unrecognized label `spaceship`. -/
theorem c3_witness :
    (map_detection { class_name := some "spaceship" : PyDetection }).cls ∈ waste_categories ∧
    (List.lookup (py_lower "spaceship") class_mapping = none →
      contain_loop class_mapping (py_lower "spaceship") = none →
      (map_detection { class_name := some "spaceship" : PyDetection }).cls = "plastic_bottle") :=
  c3_map_total_and_categorical _ "spaceship" rfl

/-- C4: an absent or empty `class_name` resolves to `plastic_bottle`
(in the code the empty label reaches the substring loop, whose first
entry `bottle` contains the empty string, and that entry's value happens
to coincide with the default category). -/
theorem c4_empty_label_default (d : PyDetection)
    (h : d.class_name = none ∨ d.class_name = some "") :
    (map_detection d).cls = "plastic_bottle" := by
  have hc : (map_detection d).cls = map_class (py_lower (d.class_name.getD "")) := rfl
  rcases h with h | h <;> rw [hc, h] <;> decide

/-- C4 witness: a detection dict without the `class_name` key. -/
theorem c4_witness :
    (map_detection { class_name := none : PyDetection }).cls = "plastic_bottle" :=
  c4_empty_label_default _ (Or.inl rfl)

/-- C5: the mapping algorithm is the deterministic function: lowercase
the raw label, exact-match against the table, and on a miss take the
value of the first table entry (in definition order, via `List.find?`)
whose key contains or is contained in the label, else the default.
Additionally every table key maps exactly to its associated category. -/
theorem c5_deterministic_first_match :
    (∀ detection : PyDetection,
      (map_detection detection).cls =
        (let raw := py_lower (detection.class_name.getD "")
         match List.lookup raw class_mapping with
         | some v => v
         | none =>
           match (class_mapping.find? fun kv =>
               py_contains kv.1.data raw.data || py_contains raw.data kv.1.data).map
               Prod.snd with
           | some v => v
           | none => "plastic_bottle")) ∧
    (∀ kv ∈ class_mapping, map_class kv.1 = kv.2) := by
  constructor
  · intro d
    have hc : (map_detection d).cls = map_class (py_lower (d.class_name.getD "")) := rfl
    rw [hc]
    unfold map_class
    rw [contain_loop_eq_find]
  · decide

/-- C5 witness: a table key resolves to its own category. -/
theorem c5_witness : map_class "banana" = "food_waste" :=
  c5_deterministic_first_match.2 ("banana", "food_waste") (by decide)

/-- C10: `map_detection` passes `bbox`, `confidence` and `class_id`
through unchanged when present and substitutes `[0,0,0,0]`, `0.0` and
`0` when absent, never failing on a missing field. -/
theorem c10_passthrough_defaults (d : PyDetection) :
    ((∀ bb, d.bbox = some bb → (map_detection d).bbox = bb) ∧
      (d.bbox = none → (map_detection d).bbox = [0, 0, 0, 0])) ∧
    ((∀ c, d.confidence = some c → (map_detection d).confidence = c) ∧
      (d.confidence = none → (map_detection d).confidence = 0)) ∧
    ((∀ i, d.class_id = some i → (map_detection d).class_id = i) ∧
      (d.class_id = none → (map_detection d).class_id = 0)) := by
  exact ⟨⟨fun bb hb => by simp [map_detection, hb],
          fun hb => by simp [map_detection, hb]⟩,
         ⟨fun c hcf => by simp [map_detection, hcf],
          fun hcf => by simp [map_detection, hcf]⟩,
         ⟨fun i hi => by simp [map_detection, hi],
          fun hi => by simp [map_detection, hi]⟩⟩

/-- C10 witness: present fields pass through. -/
theorem c10_witness : (map_detection det_bottle).bbox = [1, 2, 3, 4] :=
  (c10_passthrough_defaults det_bottle).1.1 [1, 2, 3, 4] rfl

/-! ## Claims about the `/detect` orchestrator -/

theorem detect_waste_ok_build (ctx : AppCtx) (img : Option (List Nat))
    (b64 : Option (List Char)) (seg : Bool) (r : DetectResponse)
    (h : detect_waste ctx img b64 seg = .ok r) :
    build_response ctx seg = .ok r := by
  unfold detect_waste at h
  split at h
  · exact DetectOutcome.noConfusion h
  · split at h
    · exact DetectOutcome.noConfusion h
    · split at h
      · exact DetectOutcome.noConfusion h
      · exact h

/-- C1 counterexample: a ready detector reporting zero detections with
`segmentation=true` produces a response with no `masks` key at all
(`masks = none`), not `masks == []` — so the `masks` key is not present
iff segmentation was requested. -/
theorem c1_counterexample :
    detect_waste ctx_zero_det (some [1]) none true =
      .ok { success := true, detections := [], count := 0, masks := none } ∧
    (none : Option (List (Option String))) ≠ some [] := by
  exact ⟨rfl, by simp⟩

/-- C1 (amended): on every successful `/detect` response the `masks` key
is present iff `segmentation=true` was requested AND the detector
reported at least one detection; in particular zero detections yield
`success = true`, `count = 0`, `detections = []` and no `masks` key,
with no segmentation attempted. -/
theorem c1_masks_key_amended (ctx : AppCtx) (img : Option (List Nat))
    (b64 : Option (List Char)) (seg : Bool) (r : DetectResponse)
    (h : detect_waste ctx img b64 seg = .ok r) :
    (r.masks.isSome ↔ (seg = true ∧ r.detections ≠ [])) ∧
    (ctx.detectResult = .ok [] →
      r = { success := true, detections := [], count := 0, masks := none }) := by
  have hb := detect_waste_ok_build ctx img b64 seg r h
  unfold build_response at hb
  split at hb
  · exact DetectOutcome.noConfusion hb
  · next dets hres =>
    by_cases hd : dets.isEmpty
    · rw [if_pos hd] at hb
      injection hb with hr
      subst hr
      constructor
      · simp
      · intro _
        rfl
    · rw [if_neg hd] at hb
      injection hb with hr
      subst hr
      constructor
      · cases seg with
        | false => simp
        | true =>
          have hne : List.map map_detection dets ≠ [] := by
            intro hnil
            rw [List.map_eq_nil_iff] at hnil
            rw [hnil] at hd
            simp at hd
          simp [hne]
      · intro hnil
        rw [hres] at hnil
        injection hnil with hdets
        rw [hdets] at hd
        simp at hd

/-- C1 witness: the zero-detection context with `segmentation=true`. -/
theorem c1_witness :
    ((none : Option (List (Option String))).isSome ↔
      (true = true ∧
        ({ success := true, detections := [], count := 0,
           masks := none } : DetectResponse).detections ≠ [])) ∧
    (ctx_zero_det.detectResult = .ok [] →
      ({ success := true, detections := [], count := 0,
         masks := none } : DetectResponse) =
        { success := true, detections := [], count := 0, masks := none }) :=
  c1_masks_key_amended ctx_zero_det (some [1]) none true
    { success := true, detections := [], count := 0, masks := none } rfl

/-- C2 counterexample: with the detector not ready, a request supplying
neither image source is rejected 503, not 400 — the readiness check runs
before input validation. -/
theorem c2_counterexample :
    detect_waste ctx_unready none none false =
      .http 503 "Detector not loaded. Check server logs." ∧
    (503 : Nat) ≠ 400 := by
  exact ⟨rfl, by decide⟩

/-- C2 (amended): the detector-readiness check precedes input
validation — an unready detector yields 503 whatever the inputs; with a
ready detector, a request supplying neither source is rejected 400
before any model invocation; a request supplying both sources is not
rejected: the file is used and `image_base64` is ignored. -/
theorem c2_readiness_before_validation (ctx : AppCtx) (img : Option (List Nat))
    (b64 : Option (List Char)) (seg : Bool) :
    (ctx.detectorLoaded = false →
      detect_waste ctx img b64 seg =
        .http 503 "Detector not loaded. Check server logs.") ∧
    (ctx.detectorLoaded = true →
      detect_waste ctx none none seg =
        .http 400 "No image provided. Send image file or image_base64 string.") ∧
    (∀ f s, detect_waste ctx (some f) (some s) seg =
      detect_waste ctx (some f) none seg) := by
  refine ⟨fun hu => ?_, fun hl => ?_, fun f s => rfl⟩
  · simp [detect_waste, hu]
  · simp [detect_waste, hl, get_image_data]

/-- C2 witness: the unready context gets 503; a loaded context with no
image source gets 400. -/
theorem c2_witness :
    detect_waste ctx_unready none none false =
      .http 503 "Detector not loaded. Check server logs." ∧
    detect_waste ctx_one_det none none false =
      .http 400 "No image provided. Send image file or image_base64 string." :=
  ⟨(c2_readiness_before_validation ctx_unready none none false).1 rfl,
   (c2_readiness_before_validation ctx_one_det none none false).2.1 rfl⟩

/-- C7: whenever the `masks` list is present it has exactly the length
of the detections list; with the segmenter ready, entry `i` is the
outcome of the segmentation attempt for detection `i` (a failed attempt
puts `null` at that index only); with the segmenter not ready, every
entry is `null`. -/
theorem c7_masks_alignment (ctx : AppCtx) (img : Option (List Nat))
    (b64 : Option (List Char)) (seg : Bool) (r : DetectResponse)
    (m : List (Option String))
    (h : detect_waste ctx img b64 seg = .ok r) (hm : r.masks = some m) :
    m.length = r.detections.length ∧ r.count = r.detections.length ∧
    (ctx.segmenterLoaded = true →
      ∀ i (hi : i < m.length), m.get ⟨i, hi⟩ = ctx.segAttempt i) ∧
    (ctx.segmenterLoaded = false → ∀ x ∈ m, x = none) := by
  have hb := detect_waste_ok_build ctx img b64 seg r h
  unfold build_response at hb
  split at hb
  · exact DetectOutcome.noConfusion hb
  · next dets hres =>
    by_cases hd : dets.isEmpty
    · rw [if_pos hd] at hb
      injection hb with hr
      subst hr
      simp at hm
    · rw [if_neg hd] at hb
      injection hb with hr
      subst hr
      simp only at hm
      cases seg with
      | false => simp at hm
      | true =>
        rw [if_pos rfl] at hm
        injection hm with hm'
        cases hsl : ctx.segmenterLoaded with
        | true =>
          rw [hsl] at hm'
          simp only [Bool.and_true, Bool.and_self, if_pos] at hm'
          subst hm'
          refine ⟨by simp, by simp, fun _ i hi => ?_, fun hfalse => ?_⟩
          · rw [List.get_eq_getElem]
            have hi' : i < dets.length := by
              simpa using hi
            simp [List.getElem_map, List.getElem_range]
          · simp at hfalse
        | false =>
          rw [hsl] at hm'
          simp only [Bool.and_false, Bool.not_false, Bool.and_true, if_neg, if_pos,
            Bool.false_eq_true, not_false_eq_true] at hm'
          subst hm'
          refine ⟨by simp, by simp, fun htrue _ _ => ?_, fun _ x hx => ?_⟩
          · simp at htrue
          · exact List.eq_of_mem_replicate hx

/-- C7 witness: one detection, segmenter ready, one mask entry. -/
theorem c7_witness :
    [some "data:image/png;base64,AAAA"].length =
      ({ success := true, detections := [map_detection det_bottle], count := 1,
         masks := some [some "data:image/png;base64,AAAA"] } : DetectResponse).detections.length ∧
    ({ success := true, detections := [map_detection det_bottle], count := 1,
       masks := some [some "data:image/png;base64,AAAA"] } : DetectResponse).count =
      ({ success := true, detections := [map_detection det_bottle], count := 1,
         masks := some [some "data:image/png;base64,AAAA"] } : DetectResponse).detections.length ∧
    (ctx_one_det.segmenterLoaded = true →
      ∀ i (hi : i < [some "data:image/png;base64,AAAA"].length),
        [some "data:image/png;base64,AAAA"].get ⟨i, hi⟩ = ctx_one_det.segAttempt i) ∧
    (ctx_one_det.segmenterLoaded = false →
      ∀ x ∈ [some "data:image/png;base64,AAAA"], x = none) :=
  c7_masks_alignment ctx_one_det (some [1]) none true
    { success := true, detections := [map_detection det_bottle], count := 1,
      masks := some [some "data:image/png;base64,AAAA"] }
    [some "data:image/png;base64,AAAA"] rfl rfl

/-! ## Claims about the SAM2 segmenter -/

/-- C8 counterexample: on a ready segmenter with decodable image bytes
but a malformed (3-element) bounding box, the tuple unpacking before the
guarded block raises, so `segment` propagates an exception instead of
returning an all-zero mask. -/
theorem c8_counterexample :
    sam2_segment true (some (2, 3)) [0, 1, 2] none =
      .error "not enough values to unpack" ∧
    (Except.error "not enough values to unpack" :
        Except String (List (List Nat))) ≠
      .ok (List.replicate 2 (List.replicate 3 0)) := by
  exact ⟨rfl, by simp⟩

/-- C8 (amended): on a ready segmenter with decodable image bytes and a
4-element bounding box, any failure of the guarded predictor block
yields an all-zero uint8 mask of the source image's height × width
instead of an exception, and no exception ever escapes `segment` in
that situation. -/
theorem c8_zero_mask_on_failure (h w : Nat) (bbox : List ℚ)
    (x1 y1 x2 y2 : ℚ) (hb : bbox = [x1, y1, x2, y2]) :
    sam2_segment true (some (h, w)) bbox none =
      .ok (List.replicate h (List.replicate w 0)) ∧
    (List.replicate h (List.replicate w (0 : Nat))).length = h ∧
    (∀ row ∈ List.replicate h (List.replicate w (0 : Nat)),
      row.length = w ∧ ∀ v ∈ row, v = 0) ∧
    (∀ po, except_is_ok (sam2_segment true (some (h, w)) bbox po) = true) := by
  subst hb
  refine ⟨rfl, List.length_replicate h _, fun row hrow => ?_, fun po => ?_⟩
  · rw [List.eq_of_mem_replicate hrow]
    exact ⟨List.length_replicate w _, fun v hv => List.eq_of_mem_replicate hv⟩
  · cases po <;> rfl

/-- C8 witness: a 2×3 image with a well-formed box and a failing
predictor. -/
theorem c8_witness :
    sam2_segment true (some (2, 3)) [0, 1, 2, 5] none =
      .ok (List.replicate 2 (List.replicate 3 0)) ∧
    (List.replicate 2 (List.replicate 3 (0 : Nat))).length = 2 ∧
    (∀ row ∈ List.replicate 2 (List.replicate 3 (0 : Nat)),
      row.length = 3 ∧ ∀ v ∈ row, v = 0) ∧
    (∀ po, except_is_ok (sam2_segment true (some (2, 3)) [0, 1, 2, 5] po) = true) :=
  c8_zero_mask_on_failure 2 3 [0, 1, 2, 5] 0 1 2 5 rfl

/-! ## Claims about the YOLO detector adapter -/

/-- C9 counterexample: when both the YOLOv10 load and the v8 fallback
fail, `__init__` raises the fallback `RuntimeError` past initialization
instead of completing in a not-ready state. -/
theorem c9_counterexample :
    detector_init env_both_fail =
      .error "Failed to load YOLOv8 fallback: ultralytics package not installed" ∧
    except_is_ok (detector_init env_both_fail) = false := by
  exact ⟨rfl, rfl⟩

/-- C9 (amended): when both loads fail, initialization raises the
fallback `RuntimeError` (the enclosing service catches it and records
the detector as absent); on any adapter without a loaded model,
`is_ready` is false and `detect` fails fast with the model-unavailable
error rather than returning an empty detection list. -/
theorem c9_init_raises_when_both_fail (env : YoloEnv) (e e' : String)
    (h10 : env.load10 = .error e) (hfb : env.fallback = .error e') :
    detector_init env = .error ("Failed to load YOLOv8 fallback: " ++ e') ∧
    (∀ d : Detector, d.model = none →
      detector_is_ready d = false ∧
      ∀ res, detector_detect d res = .error "Model not loaded") := by
  constructor
  · unfold detector_init load_yolov10 load_yolov8_fallback
    rw [h10, hfb]
    cases env.fileExists <;> rfl
  · intro d hd
    refine ⟨by simp [detector_is_ready, hd], fun res => ?_⟩
    unfold detector_detect
    rw [hd]

/-- C9 witness: the concrete doubly-failing environment and a model-less
adapter. -/
theorem c9_witness :
    detector_init env_both_fail =
      .error ("Failed to load YOLOv8 fallback: " ++ "ultralytics package not installed") ∧
    (∀ d : Detector, d.model = none →
      detector_is_ready d = false ∧
      ∀ res, detector_detect d res = .error "Model not loaded") :=
  c9_init_raises_when_both_fail env_both_fail "weights missing"
    "ultralytics package not installed" rfl rfl

/-! ## `utils/image_io.py` claims: the base64 round trip -/

theorem char_sextet_sextet_char_fin :
    ∀ s : Fin 64, char_sextet (sextet_char s.val) = some s.val := by decide

theorem char_sextet_sextet_char (s : Nat) (hs : s < 64) :
    char_sextet (sextet_char s) = some s :=
  char_sextet_sextet_char_fin ⟨s, hs⟩

theorem sextet_char_ne_pad_fin : ∀ s : Fin 64, ¬(sextet_char s.val = '=') := by decide

theorem sextet_char_ne_pad (s : Nat) (hs : s < 64) : ¬(sextet_char s = '=') :=
  sextet_char_ne_pad_fin ⟨s, hs⟩

theorem b64decode_quad (s0 s1 s2 s3 : Nat) (h0 : s0 < 64) (h1 : s1 < 64)
    (h2 : s2 < 64) (h3 : s3 < 64) (rest : List Char) :
    b64decode (sextet_char s0 :: sextet_char s1 :: sextet_char s2 ::
        sextet_char s3 :: rest) =
      match b64decode rest with
      | some ds => some ((s0 * 4 + s1 / 16) :: (s1 % 16 * 16 + s2 / 4) ::
          (s2 % 4 * 64 + s3) :: ds)
      | none => none := by
  simp only [b64decode, char_sextet_sextet_char s0 h0, char_sextet_sextet_char s1 h1,
    char_sextet_sextet_char s2 h2, char_sextet_sextet_char s3 h3,
    sextet_char_ne_pad s2 h2, sextet_char_ne_pad s3 h3, if_false, ite_false]

theorem b64_roundtrip (l : List Nat) (hl : ∀ x ∈ l, x < 256) :
    b64decode (b64encode l) = some l := by
  induction l using b64encode.induct with
  | case1 => rfl
  | case2 a =>
    have ha : a < 256 := hl a (by simp)
    rw [b64encode]
    simp only [b64decode, char_sextet_sextet_char (a / 4) (by omega),
      char_sextet_sextet_char (a % 4 * 16) (by omega), if_pos rfl, ite_true]
    have e1 : a / 4 * 4 + a % 4 * 16 / 16 = a := by omega
    rw [e1]
  | case3 a b =>
    have ha : a < 256 := hl a (by simp)
    have hb : b < 256 := hl b (by simp)
    rw [b64encode]
    simp only [b64decode, char_sextet_sextet_char (a / 4) (by omega),
      char_sextet_sextet_char (a % 4 * 16 + b / 16) (by omega),
      char_sextet_sextet_char (b % 16 * 4) (by omega),
      sextet_char_ne_pad (b % 16 * 4) (by omega), if_pos rfl, ite_true, if_false, ite_false]
    have e1 : a / 4 * 4 + (a % 4 * 16 + b / 16) / 16 = a := by omega
    have e2 : (a % 4 * 16 + b / 16) % 16 * 16 + b % 16 * 4 / 4 = b := by omega
    rw [e1, e2]
  | case4 a b c rest ih =>
    have ha : a < 256 := hl a (by simp)
    have hb : b < 256 := hl b (by simp)
    have hc : c < 256 := hl c (by simp)
    have ihr := ih (fun x hx => hl x (by simp [hx]))
    rw [b64encode]
    rw [b64decode_quad _ _ _ _ (by omega) (by omega) (by omega) (by omega)]
    rw [ihr]
    have e1 : a / 4 * 4 + (a % 4 * 16 + b / 16) / 16 = a := by omega
    have e2 : (a % 4 * 16 + b / 16) % 16 * 16 + (b % 16 * 4 + c / 64) / 4 = b := by omega
    have e3 : (b % 16 * 4 + c / 64) % 4 * 64 + c % 64 = c := by omega
    rw [e1, e2, e3]

theorem sextet_char_safe (n : Nat) :
    (sextet_char n != ',') = true ∧ (sextet_char n).isWhitespace = false := by
  by_cases hn : n < 64
  · have h64 : ∀ s : Fin 64,
        (sextet_char s.val != ',') = true ∧ (sextet_char s.val).isWhitespace = false := by
      decide
    exact h64 ⟨n, hn⟩
  · have hq : sextet_char n = '?' := by
      unfold sextet_char
      apply List.getD_eq_default
      have hlen : b64_alphabet.length = 64 := rfl
      omega
    rw [hq]
    exact ⟨by decide, by decide⟩

theorem b64encode_chars (l : List Nat) :
    ∀ ch ∈ b64encode l, (ch != ',') = true ∧ ch.isWhitespace = false := by
  induction l using b64encode.induct with
  | case1 => intro ch hch; simp [b64encode] at hch
  | case2 a =>
    intro ch hch
    rw [b64encode] at hch
    simp only [List.mem_cons, List.not_mem_nil, or_false] at hch
    rcases hch with rfl | rfl | rfl | rfl
    · exact sextet_char_safe _
    · exact sextet_char_safe _
    · exact ⟨by decide, by decide⟩
    · exact ⟨by decide, by decide⟩
  | case3 a b =>
    intro ch hch
    rw [b64encode] at hch
    simp only [List.mem_cons, List.not_mem_nil, or_false] at hch
    rcases hch with rfl | rfl | rfl | rfl
    · exact sextet_char_safe _
    · exact sextet_char_safe _
    · exact sextet_char_safe _
    · exact ⟨by decide, by decide⟩
  | case4 a b c rest ih =>
    intro ch hch
    rw [b64encode] at hch
    simp only [List.mem_cons] at hch
    rcases hch with rfl | rfl | rfl | rfl | hch
    · exact sextet_char_safe _
    · exact sextet_char_safe _
    · exact sextet_char_safe _
    · exact sextet_char_safe _
    · exact ih ch hch

theorem py_contains_comma_false (l : List Char)
    (h : ∀ ch ∈ l, (ch != ',') = true) : py_contains ",".data l = false := by
  induction l with
  | nil => rfl
  | cons a t ih =>
    have ha : a ≠ ',' := by simpa [bne_iff_ne] using h a (List.mem_cons_self a t)
    rw [py_contains]
    have hp : starts_with ",".data (a :: t) = false := by
      rw [show (",".data : List Char) = [','] from rfl]
      simp [starts_with, beq_eq_false_iff_ne, Ne.symm ha]
    rw [hp, Bool.false_or]
    exact ih fun ch hch => h ch (List.mem_cons_of_mem a hch)

theorem dropWhile_ws_eq_self (l : List Char)
    (h : ∀ ch ∈ l, ch.isWhitespace = false) :
    l.dropWhile Char.isWhitespace = l := by
  cases l with
  | nil => rfl
  | cons a t =>
    rw [List.dropWhile_cons, if_neg]
    simp [h a (List.mem_cons_self a t)]

theorem py_strip_eq_self (l : List Char)
    (h : ∀ ch ∈ l, ch.isWhitespace = false) : py_strip l = l := by
  unfold py_strip
  rw [dropWhile_ws_eq_self l h,
    dropWhile_ws_eq_self l.reverse fun ch hch => h ch (List.mem_reverse.mp hch),
    List.reverse_reverse]

theorem decode_image_plain (payload : List Char)
    (hnc : ∀ ch ∈ payload, (ch != ',') = true)
    (hws : ∀ ch ∈ payload, ch.isWhitespace = false) :
    decode_image payload = b64decode payload := by
  simp only [decode_image]
  rw [py_contains_comma_false payload hnc]
  rw [if_neg (by simp)]
  rw [py_strip_eq_self payload hws]

theorem decode_image_data_url (payload : List Char)
    (hnc : ∀ ch ∈ payload, (ch != ',') = true)
    (hws : ∀ ch ∈ payload, ch.isWhitespace = false) :
    decode_image ("data:image/png;base64,".data ++ payload) = b64decode payload := by
  simp only [decode_image]
  rw [if_pos
    (show py_contains ",".data ("data:image/png;base64,".data ++ payload) = true from rfl)]
  rw [show (("data:image/png;base64,".data ++ payload).dropWhile (· != ',')) = ',' :: payload
    from rfl]
  rw [show ((',' : Char) :: payload).drop 1 = payload from rfl]
  rw [List.takeWhile_eq_self_iff.mpr hnc]
  rw [py_strip_eq_self payload hws]

theorem encode_image_png_shape (b : List Nat) :
    encode_image_to_base64 b "PNG".data = "data:image/png;base64,".data ++ b64encode b := rfl

/-- C6: for every byte string, decoding the encoded form recovers the
bytes, both for the data-URL-prefixed output of
`encode_image_to_base64` and for the bare base64 payload. -/
theorem c6_base64_roundtrip (b : List Nat) (hb : ∀ x ∈ b, x < 256) :
    decode_image (encode_image_to_base64 b "PNG".data) = some b ∧
    decode_image (b64encode b) = some b := by
  have hch := b64encode_chars b
  have hnc : ∀ ch ∈ b64encode b, (ch != ',') = true := fun ch h => (hch ch h).1
  have hws : ∀ ch ∈ b64encode b, ch.isWhitespace = false := fun ch h => (hch ch h).2
  constructor
  · rw [encode_image_png_shape, decode_image_data_url _ hnc hws, b64_roundtrip b hb]
  · rw [decode_image_plain _ hnc hws, b64_roundtrip b hb]

/-- C6 witness: a concrete 3-byte payload. -/
theorem c6_witness :
    decode_image (encode_image_to_base64 [77, 200, 3] "PNG".data) = some [77, 200, 3] ∧
    decode_image (b64encode [77, 200, 3]) = some [77, 200, 3] :=
  c6_base64_roundtrip [77, 200, 3] (by decide)
